import Mathlib

/-!
A shallow embedding of `src/SimpleSqlBuilder.js` (the `SimpleSqlBuilder` class).

JavaScript values that flow through the builder are modelled by the inductive
type `JsVal`; the mutable instance fields of the class become the fields of the
`Builder` structure, and every method that mutates `sql_param_counter` is
threaded through explicitly (`Builder → ... → result × Builder`).  Methods that
`throw` are modelled in `Except String`.  JavaScript quirks are embedded as
they behave at runtime: `typeof true` is `"boolean"` (so the `case 'bool':`
branches never fire), `for (let k in arr)` iterates the *keys* `"0"`, `"1"`,
…, `Array.prototype.join` renders `null` entries as the empty string, and the
two regex replacements inside `identifier` are implemented as explicit
left-to-right scanners.
-/

namespace SimpleSqlBuilder

/-- A JavaScript value as used by the builder: `null`, booleans, (integer)
numbers, strings, arrays and plain objects (association lists). -/
inductive JsVal where
  | vNull
  | vBool (b : Bool)
  | vNum (n : Int)
  | vStr (s : String)
  | vArr (xs : List JsVal)
  | vObj (ps : List (String × JsVal))

/-- JavaScript `typeof`: note that `typeof null`, arrays and objects are all
`"object"`, and `typeof true` is `"boolean"` (not `"bool"`). -/
def jsTypeof : JsVal → String
  | .vNull => "object"
  | .vBool _ => "boolean"
  | .vNum _ => "number"
  | .vStr _ => "string"
  | .vArr _ => "object"
  | .vObj _ => "object"

mutual

/-- JavaScript `String(v)` coercion: `String(null) = "null"`, booleans print as
`true`/`false`, arrays join their elements with commas (with `null` elements
rendered empty) and plain objects print as `[object Object]`. -/
def jsString : JsVal → String
  | .vNull => "null"
  | .vBool b => if b then "true" else "false"
  | .vNum n => toString n
  | .vStr s => s
  | .vArr xs => jsStringList xs
  | .vObj _ => "[object Object]"

/-- `Array.prototype.toString`: elements joined by `,`, `null` rendered empty. -/
def jsStringList : List JsVal → String
  | [] => ""
  | [.vNull] => ""
  | [x] => jsString x
  | .vNull :: x :: xs => "," ++ jsStringList (x :: xs)
  | x :: y :: xs => jsString x ++ "," ++ jsStringList (y :: xs)

end

/-- Keys paired with elements for `for (let i in v)` over an array: the keys
are the decimal index strings `"0"`, `"1"`, …. -/
def jsEnum : Nat → List JsVal → List (String × JsVal)
  | _, [] => []
  | i, x :: xs => (toString i, x) :: jsEnum (i + 1) xs

/-- The own enumerable (key, value) entries of a value, as visited by
`for (let k in v)`: array index strings for arrays, property pairs for plain
objects, nothing for primitives and `null`. -/
def jsEntries : JsVal → List (String × JsVal)
  | .vArr xs => jsEnum 0 xs
  | .vObj ps => ps
  | _ => []

/-- JavaScript truthiness (used only by the dead `case 'bool':` branches). -/
def jsTruthy : JsVal → Bool
  | .vNull => false
  | .vBool b => b
  | .vNum n => n != 0
  | .vStr s => s != ""
  | .vArr _ => true
  | .vObj _ => true

/-- One step of `sqlEscape`: the regex `[\0\b\t\n\r\x1a\"\'\\]` matches a
single character and the match is replaced by its entry in the escape map;
every other character is kept unchanged. -/
def escChar (c : Char) : List Char :=
  if c = '\x00' then ['\\', '0']
  else if c = '\x08' then ['\\', 'b']
  else if c = '\x09' then ['\\', 't']
  else if c = '\x0a' then ['\\', 'n']
  else if c = '\x0d' then ['\\', 'r']
  else if c = '\x1a' then ['\\', 'Z']
  else if c = '"' then ['\\', '"']
  else if c = '\'' then ['\\', '\'']
  else if c = '\\' then ['\\', '\\']
  else [c]

/-- `sqlEscape` over a character list: the global single-character regex
replacement is exactly a per-character expansion. -/
def sqlEscapeL : List Char → List Char
  | [] => []
  | c :: rest => escChar c ++ sqlEscapeL rest

/-- `sqlEscape(val)` of the source (for string input). -/
def sqlEscape (s : String) : String :=
  String.mk (sqlEscapeL s.data)

/-- The regex character class `[a-zA-Z_0-9]` used by `identifier`. -/
def isWordChar (c : Char) : Bool :=
  c.isAlpha || c.isDigit || c == '_'

/-- The regex character class `[a-zA-Z_0-9*]` (second segment of a dotted
identifier, which may be `*`). -/
def isWordStarChar (c : Char) : Bool :=
  isWordChar c || c == '*'

/-- Attempt to match the regex `([a-zA-Z_0-9]+\.[a-zA-Z_0-9*]+)` at the start
of `cs`; on success returns the matched text and the remainder. -/
def dottedMatchAt (cs : List Char) : Option (List Char × List Char) :=
  let w := cs.takeWhile isWordChar
  if w = [] then none
  else
    match cs.drop w.length with
    | d :: r2 =>
        if d = '.' then
          let s := r2.takeWhile isWordStarChar
          if s = [] then none
          else some (w ++ d :: s, r2.drop s.length)
        else none
    | [] => none

/-- `String.prototype.split('.')` on a character list. -/
def splitChar (sep : Char) : List Char → List (List Char)
  | [] => [[]]
  | c :: rest =>
    match splitChar sep rest with
    | [] => [[]]
    | h :: t => if c = sep then [] :: h :: t else (c :: h) :: t

/-- Join chunks back with a separator character (`Array.prototype.join('.')`). -/
def joinSep (sep : Char) : List (List Char) → List Char
  | [] => []
  | [w] => w
  | w :: ws => w ++ sep :: joinSep sep ws

/-- The replacement callback of the first regex in `identifier`: split the
match on `.`; if the first word is not a registered identifier return the
match unchanged (without setting `modified`), otherwise backtick-quote every
word except a bare `*` and rejoin with `.`.  The second component is the
contribution to the `modified` flag. -/
def dottedCallback (ids : List String) (m : List Char) : List Char × Bool :=
  let words := splitChar '.' m
  match words with
  | [] => (m, false)
  | w0 :: _ =>
    if ids.contains (String.mk w0) then
      (joinSep '.' (words.map (fun w =>
        if w = ['*'] then w else '`' :: (sqlEscapeL w ++ ['`']))), true)
    else (m, false)

/-- Left-to-right global regex replacement for the dotted-identifier pattern:
try to match at the current position; on success emit the callback's
replacement and continue after the match, otherwise emit one character and
move on.  `fuel` only needs to be at least the length of the input. -/
def dottedScan (ids : List String) : Nat → List Char → List Char × Bool
  | 0, cs => (cs, false)
  | Nat.succ fuel, cs =>
    match dottedMatchAt cs with
    | some (m, rest) =>
        let (rep, mod1) := dottedCallback ids m
        let (tl, mod2) := dottedScan ids fuel rest
        (rep ++ tl, mod1 || mod2)
    | none =>
        match cs with
        | [] => ([], false)
        | ch :: rest =>
            let (tl, mod2) := dottedScan ids fuel rest
            (ch :: tl, mod2)

/-- Attempt to match the regex `(as|AS) ([a-zA-Z0-9_]+)` at the start of `cs`;
on success returns the captured column and the remainder. -/
def asMatchAt (cs : List Char) : Option (List Char × List Char) :=
  match cs with
  | x :: y :: sp :: r =>
      if sp = ' ' ∧ ((x = 'a' ∧ y = 's') ∨ (x = 'A' ∧ y = 'S')) then
        let col := r.takeWhile isWordChar
        if col = [] then none else some (col, r.drop col.length)
      else none
  | _ => none

/-- Left-to-right global replacement for the `AS`-alias pattern: a match
`as col` / `AS col` is replaced by ``AS `col` `` (escaped) and sets the
`modified` flag. -/
def asScan : Nat → List Char → List Char × Bool
  | 0, cs => (cs, false)
  | Nat.succ fuel, cs =>
    match asMatchAt cs with
    | some (col, rest) =>
        let (tl, mod2) := asScan fuel rest
        ('A' :: 'S' :: ' ' :: '`' :: (sqlEscapeL col ++ ['`']) ++ tl, true || mod2)
    | none =>
        match cs with
        | [] => ([], false)
        | ch :: rest =>
            let (tl, mod2) := asScan fuel rest
            (ch :: tl, mod2)

/-- `identifier(val, force_quote)` of the source: run the two global regex
replacements over `String(val)`; if neither modified the text, force-quoting
was requested, and the text contains no space, backtick-quote the whole
(escaped) token; otherwise return the (possibly rewritten) text. -/
def identifier (ids : List String) (val : JsVal) (force_quote : Bool) : String :=
  let s0 := (jsString val).data
  let (s1, m1) := dottedScan ids s0.length s0
  let (s2, m2) := asScan s1.length s1
  let modified := m1 || m2
  if !modified && force_quote && !(s2.contains ' ') then
    "`" ++ sqlEscape (String.mk s2) ++ "`"
  else String.mk s2

/-- Result of the private `table()` helper: a quoted table-name string, a
quoted (table, alias) pair, or `undefined` (object payload with no keys). -/
inductive TableRes where
  | undef
  | str (s : String)
  | pair (t a : String)

/-- Template-string coercion of a `table()` result (`INSERT INTO ${table}`). -/
def TableRes.render : TableRes → String
  | .undef => "undefined"
  | .str s => s
  | .pair _ _ => "[object Object]"

/-- The `table`/`alias` extraction loop used by `buildSelect`, `buildUpdate`,
`buildDelete` and `buildJoin` (an alias of `""` counts as absent/falsy). -/
def TableRes.split : TableRes → String × String
  | .undef => ("undefined", "")
  | .str s => (s, "")
  | .pair t a => (t, a)

/-- The `this.sql_select` record after `select()` ran. -/
structure SelectData where
  table : TableRes
  columns : List JsVal

/-- The `this.sql_insert` record after `insert()` ran. -/
structure InsertData where
  table : TableRes
  columns : List (String × JsVal)
  duplicates : List String

/-- The `this.sql_update` record after `update()` ran. -/
structure UpdateData where
  table : TableRes
  columns : List (String × JsVal)

/-- The `this.sql_delete` record after `delete()` ran. -/
structure DeleteData where
  table : TableRes

/-- One entry of `this.sql_joins`. -/
structure JoinData where
  type : String
  table : TableRes
  conditions : List JsVal

/-- The mutable instance state of a `SimpleSqlBuilder`.  `sql_params` is the
JavaScript array used both positionally (index keys `"0"`, `"1"`, …) and
associatively (named keys), hence a single string-keyed association list. -/
structure Builder where
  sql_select : Option SelectData
  sql_insert : Option InsertData
  sql_update : Option UpdateData
  sql_delete : Option DeleteData
  sql_where : List JsVal
  sql_joins : List JoinData
  sql_having : List JsVal
  sql_group : List JsVal
  sql_order : List JsVal
  sql_limit : Option String
  sql_mode : Option String
  sql_params : List (String × JsVal)
  sql_identifiers : List String
  sql_param_counter : Nat

/-- The constructor: every list empty, `sql_limit`/`sql_mode` null, counter 0. -/
def freshBuilder : Builder :=
  ⟨none, none, none, none, [], [], [], [], [], none, none, [], [], 0⟩

/-- `quote(val, force_quote)` of the source.  The `case 'bool':` branch is dead
code at runtime (JS `typeof` yields `"boolean"`), so booleans fall into the
`default:` branch and are string-coerced inside single quotes. -/
def quote (val : JsVal) (force_quote : Bool) : String :=
  if jsTypeof val = "bool" then (if jsTruthy val then "1" else "0")
  else if jsTypeof val = "number" then
    (if force_quote then "'" ++ jsString val ++ "'" else jsString val)
  else if jsTypeof val = "object" then
    (match val with
     | .vNull => "NULL"
     | _ => "")
  else "'" ++ sqlEscape (jsString val) ++ "'"

/-- The test `val === '?'` (strict string equality). -/
def isQMark : JsVal → Bool
  | .vStr s => s == "?"
  | _ => false

/-- First match of the regex `\?\:([a-zA-Z_0-9]+)` anywhere in the text,
returning the captured name (the `?:` stripped, as done by
`String(matches[0]).replace('?:','')`). -/
def namedMatch : List Char → Option String
  | [] => none
  | '?' :: ':' :: rest =>
      let w := rest.takeWhile isWordChar
      if w = [] then namedMatch (':' :: rest) else some (String.mk w)
  | _ :: rest => namedMatch rest

/-- The tail of `identifierOrQuote` after the positional-placeholder check:
try a named `?:key` parameter, otherwise fall through to `identifier`. -/
def identifierOrQuoteNamed (b : Builder) (val : JsVal) (force_quote : Bool) :
    String × Builder :=
  match namedMatch (jsString val).data with
  | some name =>
      match b.sql_params.lookup name with
      | some p => (quote p force_quote, b)
      | none => (identifier b.sql_identifiers val force_quote, b)
  | none => (identifier b.sql_identifiers val force_quote, b)

/-- `identifierOrQuote(val, force_quote)` of the source.  As in `quote`, the
`case 'bool':` switch label never matches at runtime, so booleans fall through
the whole switch and end up in `identifier`.  A `'?'` token consumes the next
positional parameter only when the current counter is a key of `sql_params`. -/
def identifierOrQuote (b : Builder) (val : JsVal) (force_quote : Bool) :
    String × Builder :=
  if jsTypeof val = "bool" then ((if jsTruthy val then "1" else "0"), b)
  else if jsTypeof val = "number" then
    ((if force_quote then "'" ++ jsString val ++ "'" else jsString val), b)
  else if jsTypeof val = "object" ∧ (match val with | .vNull => true | _ => false) = true then
    ("NULL", b)
  else
    if isQMark val then
      match b.sql_params.lookup (toString b.sql_param_counter) with
      | some p =>
          (quote p force_quote, { b with sql_param_counter := b.sql_param_counter + 1 })
      | none => identifierOrQuoteNamed b val force_quote
    else identifierOrQuoteNamed b val force_quote

/-- Resolve a list of values with `identifierOrQuote`, threading the builder. -/
def resolveList (b : Builder) (force_quote : Bool) :
    List JsVal → List String × Builder
  | [] => ([], b)
  | x :: xs =>
      let (s, b1) := identifierOrQuote b x force_quote
      let (rest, b2) := resolveList b1 force_quote xs
      (s :: rest, b2)

/-- `processCondition([column, operator, value])` of the source.  Only called
with a 3-element array, so the length guard is vacuous here.  Returns `none`
for the degenerate `between`/`in`/`not in` branches (`return null`), and
`Except.error` models the `throw` of the `default:` branch.  Note the
evaluation order: for `between`/`in`/`not in` the value loop runs *before* the
column is resolved, and the `between` loop iterates the *keys* of the value
(`for (let val in condition[2])`), not its entries. -/
def processCondition (b : Builder) (c op v : JsVal) :
    Except String (Option String × Builder) :=
  match op with
  | .vStr o =>
    if o = "=" then
      let (cs, b1) := identifierOrQuote b c false
      let (vs, b2) := identifierOrQuote b1 v false
      .ok (some (cs ++ " = " ++ vs), b2)
    else if o = "<=" then
      let (cs, b1) := identifierOrQuote b c false
      let (vs, b2) := identifierOrQuote b1 v false
      .ok (some (cs ++ " <= " ++ vs), b2)
    else if o = ">=" then
      let (cs, b1) := identifierOrQuote b c false
      let (vs, b2) := identifierOrQuote b1 v false
      .ok (some (cs ++ " >= " ++ vs), b2)
    else if o = "<" then
      let (cs, b1) := identifierOrQuote b c false
      let (vs, b2) := identifierOrQuote b1 v false
      .ok (some (cs ++ " < " ++ vs), b2)
    else if o = ">" then
      let (cs, b1) := identifierOrQuote b c false
      let (vs, b2) := identifierOrQuote b1 v false
      .ok (some (cs ++ " > " ++ vs), b2)
    else if o = "!=" then
      let (cs, b1) := identifierOrQuote b c false
      let (vs, b2) := identifierOrQuote b1 v false
      .ok (some (cs ++ " != " ++ vs), b2)
    else if o = "<>" then
      let (cs, b1) := identifierOrQuote b c false
      let (vs, b2) := identifierOrQuote b1 v false
      .ok (some (cs ++ " != " ++ vs), b2)
    else if o = "is" then
      let (cs, b1) := identifierOrQuote b c false
      let (vs, b2) := identifierOrQuote b1 v false
      .ok (some (cs ++ " IS " ++ vs), b2)
    else if o = "is not" then
      let (cs, b1) := identifierOrQuote b c false
      let (vs, b2) := identifierOrQuote b1 v false
      .ok (some (cs ++ " IS NOT " ++ vs), b2)
    else if o = "between" then
      if jsTypeof v ≠ "object" then .ok (none, b)
      else
        let (vals, b1) := resolveList b false ((jsEntries v).map (fun p => .vStr p.1))
        let (cs, b2) := identifierOrQuote b1 c false
        .ok (some (cs ++ " BETWEEN " ++ String.intercalate " AND " vals), b2)
    else if o = "in" then
      if jsTypeof v ≠ "object" then .ok (none, b)
      else
        let (vals, b1) := resolveList b true ((jsEntries v).map (fun p => p.2))
        let (cs, b2) := identifierOrQuote b1 c false
        .ok (some (cs ++ " IN (" ++ String.intercalate "," vals ++ ")"), b2)
    else if o = "not in" then
      if jsTypeof v ≠ "object" then .ok (none, b)
      else
        let (vals, b1) := resolveList b true ((jsEntries v).map (fun p => p.2))
        let (cs, b2) := identifierOrQuote b1 c false
        .ok (some (cs ++ " NOT IN (" ++ String.intercalate "," vals ++ ")"), b2)
    else if o = "contains" then
      let (cs, b1) := identifierOrQuote b c false
      .ok (some (cs ++ " LIKE '%" ++ sqlEscape (jsString v) ++ "%'"), b1)
    else if o = "begins" then
      let (cs, b1) := identifierOrQuote b c false
      .ok (some (cs ++ " LIKE '" ++ sqlEscape (jsString v) ++ "%'"), b1)
    else if o = "ends" then
      let (cs, b1) := identifierOrQuote b c false
      .ok (some (cs ++ " LIKE '%" ++ sqlEscape (jsString v) ++ "'"), b1)
    else if o = "in set" then
      let (cs, b1) := identifierOrQuote b c false
      .ok (some ("FIND_IN_SET(" ++ cs ++ ", " ++ quote v false ++ ")"), b1)
    else .error "Condition: Unknown clause"
  | _ => .error "Condition: Unknown clause"

/-- `Array.prototype.join(sep)` over the fragment list built by
`processConditions`: a `null` entry (degenerate `between`/`in`) renders as the
empty string. -/
def jsJoin (sep : String) : List (Option String) → String
  | [] => ""
  | [x] => x.getD ""
  | x :: y :: xs => x.getD "" ++ sep ++ jsJoin sep (y :: xs)

/-- Delete a property (`delete obj[k]`). -/
def removeKey (ps : List (String × JsVal)) (k : String) : List (String × JsVal) :=
  ps.filter (fun p => p.1 != k)

/-- Property assignment `obj[k] = v`: overwrite in place, or append. -/
def upsertVal (ps : List (String × JsVal)) (k : String) (v : JsVal) :
    List (String × JsVal) :=
  if ps.any (fun p => p.1 == k) then
    ps.map (fun p => if p.1 == k then (k, v) else p)
  else ps ++ [(k, v)]

/-- The spread `[...v]`: arrays spread to their elements, strings to their
characters, anything else throws a TypeError. -/
def jsSpread : JsVal → Except String (List JsVal)
  | .vArr xs => .ok xs
  | .vStr s => .ok (s.data.map (fun ch => .vStr (String.mk [ch])))
  | _ => .error "TypeError: value is not iterable"

/-- The member *values* visited by `for (let i in v) { ... v[i] ... }`. -/
def forInValues : JsVal → List JsVal
  | .vArr xs => xs
  | .vObj ps => ps.map (fun p => p.2)
  | .vStr s => s.data.map (fun ch => .vStr (String.mk [ch]))
  | _ => []

/-- `processConditions(conditions)` of the source, with explicit recursion
fuel bounding the `{and:}/{or:}` nesting depth (the wrapper passes
`sizeOf conds`, which strictly dominates the nesting depth, so the
fuel-exhausted branch is unreachable).  Dispatch per item: a 3-element array
is a leaf; any other array or a non-null object is a group (the `and`/`or`
key is uppercased, the combinator defaults to `AND`, and a missing child list
iterates as empty); a string is a raw fragment; anything else is skipped. -/
def processConditionsF : Nat → Builder → List JsVal →
    Except String (List (Option String) × Builder)
  | 0, b, _ => .ok ([], b)
  | Nat.succ fuel, b, conds =>
    match conds with
    | [] => .ok ([], b)
    | item :: rest =>
      match item with
      | .vArr [c, o, vv] => do
          let (r, b1) ← processCondition b c o vv
          let (rs, b2) ← processConditionsF fuel b1 rest
          .ok (r :: rs, b2)
      | .vArr xs => do
          -- an array of length ≠ 3 falls into the object branch
          let pairs := jsEnum 0 xs
          let pairs1 ←
            (match pairs.lookup "and" with
             | some av => (jsSpread av).map
                 (fun ys => upsertVal (removeKey pairs "and") "AND" (.vArr ys))
             | none =>
               match pairs.lookup "or" with
               | some ov => (jsSpread ov).map
                   (fun ys => upsertVal (removeKey pairs "or") "OR" (.vArr ys))
               | none => .ok pairs)
          let combine := if (pairs1.lookup "OR").isSome then "OR" else "AND"
          let children := match pairs1.lookup combine with
            | some cv => forInValues cv
            | none => []
          let (conds1, b1) ← processConditionsF fuel b children
          let (rs, b2) ← processConditionsF fuel b1 rest
          .ok (some ("(" ++ jsJoin (" " ++ combine ++ " ") conds1 ++ ")") :: rs, b2)
      | .vObj ps => do
          let pairs1 ←
            (match ps.lookup "and" with
             | some av => (jsSpread av).map
                 (fun ys => upsertVal (removeKey ps "and") "AND" (.vArr ys))
             | none =>
               match ps.lookup "or" with
               | some ov => (jsSpread ov).map
                   (fun ys => upsertVal (removeKey ps "or") "OR" (.vArr ys))
               | none => .ok ps)
          let combine := if (pairs1.lookup "OR").isSome then "OR" else "AND"
          let children := match pairs1.lookup combine with
            | some cv => forInValues cv
            | none => []
          let (conds1, b1) ← processConditionsF fuel b children
          let (rs, b2) ← processConditionsF fuel b1 rest
          .ok (some ("(" ++ jsJoin (" " ++ combine ++ " ") conds1 ++ ")") :: rs, b2)
      | .vStr s => do
          let (rs, b1) ← processConditionsF fuel b rest
          .ok (some s :: rs, b1)
      | _ => processConditionsF fuel b rest

mutual

/-- Weighted size of a value (strings weigh their length, so the measure also
dominates a string spread into characters); `nodesList conds + 1` strictly
dominates the number of recursion steps `processConditionsF` can take on
`conds`, so it is a safe recursion fuel. -/
def nodesVal : JsVal → Nat
  | .vStr s => 1 + s.length
  | .vArr xs => 1 + nodesList xs
  | .vObj ps => 1 + nodesPairs ps
  | _ => 1

/-- Total node count of a list of values. -/
def nodesList : List JsVal → Nat
  | [] => 0
  | x :: xs => nodesVal x + nodesList xs

/-- Total node count of the values of an association list. -/
def nodesPairs : List (String × JsVal) → Nat
  | [] => 0
  | p :: ps => nodesVal p.2 + nodesPairs ps

end

/-- `processConditions` of the source (fuel instantiated; see
`processConditionsF`). -/
def processConditions (b : Builder) (conds : List JsVal) :
    Except String (List (Option String) × Builder) :=
  processConditionsF (nodesList conds + 1) b conds

/-- `processColumns(columns)` of the source: an object entry contributes
``(identifier(key) DIR)`` per key whose value upper-cases to `ASC`/`DESC`
(others are skipped); any other entry is resolved with
`identifierOrQuote(entry, true)`. -/
def processColumns (b : Builder) : List JsVal → List String × Builder
  | [] => ([], b)
  | v :: rest =>
    if jsTypeof v = "object" then
      let items := (jsEntries v).filterMap (fun p =>
        let u := (jsString p.2).toUpper
        if u = "ASC" ∨ u = "DESC" then
          some (identifier b.sql_identifiers (.vStr p.1) true ++ " " ++ u)
        else none)
      let (restL, b1) := processColumns b rest
      (items ++ restL, b1)
    else
      let (s, b1) := identifierOrQuote b v true
      let (restL, b2) := processColumns b1 rest
      (s :: restL, b2)

/-- Property assignment on the string-keyed list built by `processValues`. -/
def upsertStr (l : List (String × String)) (k v : String) :
    List (String × String) :=
  if l.any (fun p => p.1 == k) then
    l.map (fun p => if p.1 == k then (k, v) else p)
  else l ++ [(k, v)]

/-- `processValues(columns)` of the source: each `{column: value}` pair maps
the backtick-quoted column to `identifierOrQuote(value)` (no force-quote). -/
def processValues (b : Builder) (acc : List (String × String)) :
    List (String × JsVal) → List (String × String) × Builder
  | [] => (acc, b)
  | (k, v) :: rest =>
      let key := identifier b.sql_identifiers (.vStr k) true
      let (sv, b1) := identifierOrQuote b v false
      processValues b1 (upsertStr acc key sv) rest

/-- The `table(payload)` payload shape: a plain string or a
`{table: alias}` object. -/
inductive TablePayload where
  | str (s : String)
  | obj (pairs : List (String × String))

/-- `table(payload)` of the source: registers the raw name(s) in
`sql_identifiers` *before* quoting them, and for an object payload returns
after the first pair (an empty object yields `undefined`). -/
def table (b : Builder) : TablePayload → TableRes × Builder
  | .str s =>
      let b1 := { b with sql_identifiers := b.sql_identifiers ++ [s] }
      (.str (identifier b1.sql_identifiers (.vStr s) true), b1)
  | .obj [] => (.undef, b)
  | .obj ((t, a) :: _) =>
      let b1 := { b with sql_identifiers := b.sql_identifiers ++ [t, a] }
      (.pair (identifier b1.sql_identifiers (.vStr t) true)
             (identifier b1.sql_identifiers (.vStr a) true), b1)

/-- Payload of `select()`; absent keys are `none`. -/
structure SelectPayload where
  table : Option TablePayload := none
  columns : Option (List JsVal) := none

/-- Payload of `insert()`. -/
structure InsertPayload where
  table : Option TablePayload := none
  columns : Option (List (String × JsVal)) := none
  duplicates : Option (List String) := none

/-- Payload of `update()`. -/
structure UpdatePayload where
  table : Option TablePayload := none
  columns : Option (List (String × JsVal)) := none

/-- Payload of `delete()`. -/
structure DeletePayload where
  table : Option TablePayload := none

/-- One entry of the `joins()` payload. -/
structure JoinPayloadItem where
  type : Option String := none
  table : Option TablePayload := none
  conditions : Option (List JsVal) := none

/-- `params()` accepts an ordered array or a `key: value` object. -/
inductive ParamsPayload where
  | arr (xs : List JsVal)
  | obj (ps : List (String × JsVal))

/-- `select(payload)` of the source. -/
def select (b : Builder) (p : SelectPayload) : Except String Builder :=
  match p.table with
  | none => .error "Select: Missing table"
  | some t =>
    match p.columns with
    | none => .error "Select: Missing columns"
    | some cols =>
        let (tr, b1) := table b t
        .ok { b1 with sql_mode := some "select", sql_select := some ⟨tr, cols⟩ }

/-- `insert(payload)` of the source (missing `duplicates` defaults to `[]`). -/
def insert (b : Builder) (p : InsertPayload) : Except String Builder :=
  match p.table with
  | none => .error "Insert: Missing table"
  | some t =>
    match p.columns with
    | none => .error "Insert: Missing columns"
    | some cols =>
        let (tr, b1) := table b t
        .ok { b1 with sql_mode := some "insert",
                      sql_insert := some ⟨tr, cols, p.duplicates.getD []⟩ }

/-- `delete(payload)` of the source. -/
def delete (b : Builder) (p : DeletePayload) : Except String Builder :=
  match p.table with
  | none => .error "Delete: Missing table"
  | some t =>
      let (tr, b1) := table b t
      .ok { b1 with sql_mode := some "delete", sql_delete := some ⟨tr⟩ }

/-- `update(payload)` of the source. -/
def update (b : Builder) (p : UpdatePayload) : Except String Builder :=
  match p.table with
  | none => .error "Update: Missing table"
  | some t =>
    match p.columns with
    | none => .error "Update: Missing columns"
    | some cols =>
        let (tr, b1) := table b t
        .ok { b1 with sql_mode := some "update", sql_update := some ⟨tr, cols⟩ }

/-- `joins(payload)` of the source: validates and appends each entry. -/
def joins (b : Builder) : List JoinPayloadItem → Except String Builder
  | [] => .ok b
  | item :: rest =>
    match item.type with
    | none => .error "Joins: Missing type"
    | some ty =>
      match item.table with
      | none => .error "Joins: Missing table"
      | some tp =>
        match item.conditions with
        | none => .error "Joins: Missing conditions"
        | some conds =>
            let (tr, b1) := table b tp
            joins { b1 with sql_joins := b1.sql_joins ++ [⟨ty, tr, conds⟩] } rest

/-- `order(payload)` of the source. -/
def order (b : Builder) (payload : List JsVal) : Builder :=
  { b with sql_order := b.sql_order ++ payload }

/-- `group(payload)` of the source. -/
def group (b : Builder) (payload : List JsVal) : Builder :=
  { b with sql_group := b.sql_group ++ payload }

/-- `where(payload)` of the source (`where` is a Lean keyword, hence the
underscore). -/
def where_ (b : Builder) (payload : List JsVal) : Builder :=
  { b with sql_where := b.sql_where ++ payload }

/-- `having(payload)` of the source. -/
def having (b : Builder) (payload : List JsVal) : Builder :=
  { b with sql_having := b.sql_having ++ payload }

/-- JavaScript `parseInt` on a string: optional leading whitespace and sign,
then decimal digits; `none` models `NaN`. -/
def jsParseIntStr (s : String) : Option Int :=
  let cs := s.data.dropWhile (fun ch =>
    ch == ' ' || ch == '\t' || ch == '\n' || ch == '\r')
  match cs with
  | '-' :: rest => (parseDigits rest).map (fun n => -(n : Int))
  | '+' :: rest => (parseDigits rest).map (fun n => (n : Int))
  | _ => (parseDigits cs).map (fun n => (n : Int))
where
  parseDigits (cs : List Char) : Option Nat :=
    let ds := cs.takeWhile Char.isDigit
    if ds = [] then none
    else some (ds.foldl (fun acc c => acc * 10 + (c.toNat - '0'.toNat)) 0)

/-- `parseInt(v)`: the argument is string-coerced first. -/
def jsParseInt (v : JsVal) : Option Int :=
  jsParseIntStr (jsString v)

/-- Element access `v[i]` for a numeric index (`i in v` is `isSome`). -/
def jsIndex (v : JsVal) (i : Nat) : Option JsVal :=
  match v with
  | .vArr xs => xs.get? i
  | .vObj ps => ps.lookup (toString i)
  | _ => none

/-- `limit(val)` of the source: a number/string sets the limit, an object
reads `val[0]` as offset and `val[1]` as limit; `NaN` collapses to 0, and the
field is only written when offset or limit is positive. -/
def limit (b : Builder) (val : JsVal) : Builder :=
  let lim0 : Option Int :=
    if jsTypeof val = "number" ∨ jsTypeof val = "string" then jsParseInt val
    else if jsTypeof val = "object" then
      match jsIndex val 1 with
      | some x => jsParseInt x
      | none => some 0
    else some 0
  let off0 : Option Int :=
    if jsTypeof val = "object" then
      match jsIndex val 0 with
      | some x => jsParseInt x
      | none => some 0
    else some 0
  let lim := lim0.getD 0
  let off := off0.getD 0
  if off > 0 then
    { b with sql_limit := some ("LIMIT " ++ toString off ++ ", " ++ toString lim ++ "\n") }
  else if lim > 0 then
    { b with sql_limit := some ("LIMIT " ++ toString lim ++ "\n") }
  else b

/-- `params(params)` of the source: `for (let i in params)
this.sql_params[i] = params[i]` — array payloads write index keys, object
payloads write named keys, later writes overwriting earlier ones. -/
def params (b : Builder) : ParamsPayload → Builder
  | .arr xs =>
      { b with sql_params :=
          (jsEnum 0 xs).foldl (fun acc p => upsertVal acc p.1 p.2) b.sql_params }
  | .obj ps =>
      { b with sql_params :=
          ps.foldl (fun acc p => upsertVal acc p.1 p.2) b.sql_params }

/-- Alias rendering `${alias ? ` AS ${alias}` : ''}`. -/
def asAlias (a : String) : String :=
  if a = "" then "" else " AS " ++ a

/-- `buildSelect()` of the source. -/
def buildSelect (b : Builder) (sd : SelectData) : String × Builder :=
  let (cols, b1) := processColumns b sd.columns
  let (tbl, tblAlias) := sd.table.split
  ("SELECT " ++ String.intercalate ",\n" cols ++ "\n" ++
   "FROM " ++ tbl ++ asAlias tblAlias ++ "\n", b1)

/-- `buildInsert()` of the source (note the raw template interpolation of the
table and the unescaped duplicates clause). -/
def buildInsert (b : Builder) (d : InsertData) : String × Builder :=
  let (pairs, b1) := processValues b [] d.columns
  let cols := pairs.map (fun p => p.1)
  let vals := pairs.map (fun p => p.2)
  ("INSERT INTO " ++ d.table.render ++ " (" ++ String.intercalate ", " cols ++ ")\n" ++
   "VALUES (" ++ String.intercalate ", " vals ++ ")\n" ++
   (if d.duplicates.length ≠ 0 then
      "ON DUPLICATE KEY UPDATE " ++ String.intercalate ",\n" d.duplicates ++ "\n"
    else ""), b1)

/-- `buildUpdate(joins)` of the source. -/
def buildUpdate (b : Builder) (d : UpdateData) (joinsStr : String) :
    String × Builder :=
  let (pairs, b1) := processValues b [] d.columns
  let (tbl, tblAlias) := d.table.split
  let strings := pairs.map (fun p => p.1 ++ " = " ++ p.2)
  ("UPDATE " ++ tbl ++ asAlias tblAlias ++ "\n" ++
   joinsStr ++ "SET " ++ String.intercalate ",\n" strings ++ "\n", b1)

/-- `buildDelete()` of the source. -/
def buildDelete (d : DeleteData) : String :=
  let (tbl, tblAlias) := d.table.split
  "DELETE " ++ (if tblAlias = "" then "" else tblAlias) ++ "\n" ++
  "FROM " ++ tbl ++ asAlias tblAlias ++ "\n"

/-- `buildJoin(join)` of the source. -/
def buildJoin (b : Builder) (j : JoinData) : Except String (String × Builder) := do
  let (conds, b1) ← processConditions b j.conditions
  let (tbl, tblAlias) := j.table.split
  .ok (j.type.toUpper ++ " JOIN " ++ tbl ++ asAlias tblAlias ++ "\n" ++
       "ON " ++ jsJoin "\nAND " conds ++ "\n", b1)

/-- The `for (let i in this.sql_joins)` accumulation inside `build()`. -/
def buildJoinList (b : Builder) : List JoinData → Except String (String × Builder)
  | [] => .ok ("", b)
  | j :: rest => do
      let (q, b1) ← buildJoin b j
      let (qs, b2) ← buildJoinList b1 rest
      .ok (q ++ qs, b2)

/-- `buildWhere()` of the source. -/
def buildWhere (b : Builder) : Except String (String × Builder) := do
  let (conds, b1) ← processConditions b b.sql_where
  .ok ("WHERE " ++ jsJoin "\nAND " conds ++ "\n", b1)

/-- `buildHaving()` of the source. -/
def buildHaving (b : Builder) : Except String (String × Builder) := do
  let (conds, b1) ← processConditions b b.sql_having
  .ok ("HAVING " ++ jsJoin "\nAND " conds ++ "\n", b1)

/-- `buildGroup()` of the source. -/
def buildGroup (b : Builder) : String × Builder :=
  let (cols, b1) := processColumns b b.sql_group
  ("GROUP BY " ++ String.intercalate ",\n" cols ++ "\n", b1)

/-- `buildOrder()` of the source. -/
def buildOrder (b : Builder) : String × Builder :=
  let (cols, b1) := processColumns b b.sql_order
  ("ORDER BY " ++ String.intercalate ",\n" cols ++ "\n", b1)

/-- `build()` of the source: the `switch (this.sql_mode)` with its `default:
throw Error('Unknown query type')`, followed by the optional `WHERE`,
`HAVING`, `GROUP BY`, `ORDER BY` and `LIMIT` parts.  The `none` data branches
replay what the source does on its initial `[]` records (they are unreachable
through the public API, which sets the mode and the record together). -/
def build (b : Builder) : Except String String := do
  let (q0, b0) ← (match b.sql_mode with
    | some "select" => do
        let (q, b1) := (match b.sql_select with
          | some sd => buildSelect b sd
          | none => ("SELECT \nFROM null\n", b))
        let (qj, b2) ← buildJoinList b1 b1.sql_joins
        .ok (q ++ qj, b2)
    | some "insert" => do
        let (q, b1) ← (match b.sql_insert with
          | some d => .ok (buildInsert b d)
          | none => .error "TypeError: Cannot read properties of undefined (reading length)")
        let (qj, b2) ← buildJoinList b1 b1.sql_joins
        .ok (q ++ qj, b2)
    | some "delete" => do
        let q := (match b.sql_delete with
          | some d => buildDelete d
          | none => "DELETE \nFROM null\n")
        let (qj, b2) ← buildJoinList b b.sql_joins
        .ok (q ++ qj, b2)
    | some "update" => do
        let (qj, b1) ← buildJoinList b b.sql_joins
        let (q, b2) := (match b1.sql_update with
          | some d => buildUpdate b1 d qj
          | none => ("UPDATE null\n" ++ qj ++ "SET \n", b1))
        .ok (q, b2)
    | _ => .error "Unknown query type")
  let (q1, b1) ← (if b0.sql_where.length > 0 then do
      let (w, b') ← buildWhere b0
      .ok (q0 ++ w, b')
    else .ok (q0, b0))
  let (q2, b2) ← (if b1.sql_having.length > 0 then do
      let (h, b') ← buildHaving b1
      .ok (q1 ++ h, b')
    else .ok (q1, b1))
  let (q3, b3) := (if b2.sql_group.length > 0 then
      let (g, b') := buildGroup b2
      (q2 ++ g, b')
    else (q2, b2))
  let (q4, b4) := (if b3.sql_order.length > 0 then
      let (o, b') := buildOrder b3
      (q3 ++ o, b')
    else (q3, b3))
  let q5 := (match b4.sql_limit with
    | some l => q4 ++ l
    | none => q4)
  .ok q5

/-- The argument of the static `fromJson(payload)`; absent keys are `none`. -/
structure JsonPayload where
  selectP : Option SelectPayload := none
  insertP : Option InsertPayload := none
  updateP : Option UpdatePayload := none
  deleteP : Option DeletePayload := none
  joinsP : Option (List JoinPayloadItem) := none
  whereP : Option (List JsVal) := none
  havingP : Option (List JsVal) := none
  orderP : Option (List JsVal) := none
  groupP : Option (List JsVal) := none
  limitP : Option JsVal := none
  paramsP : Option ParamsPayload := none

/-- `SimpleSqlBuilder.fromJson(payload)` of the source: apply each present
clause to a fresh builder in declaration order, then `build()`. -/
def fromJson (payload : JsonPayload) : Except String String := do
  let sql := freshBuilder
  let sql ← (match payload.selectP with
    | some p => select sql p
    | none => .ok sql)
  let sql ← (match payload.insertP with
    | some p => insert sql p
    | none => .ok sql)
  let sql ← (match payload.updateP with
    | some p => update sql p
    | none => .ok sql)
  let sql ← (match payload.deleteP with
    | some p => delete sql p
    | none => .ok sql)
  let sql ← (match payload.joinsP with
    | some p => joins sql p
    | none => .ok sql)
  let sql := (match payload.whereP with
    | some p => where_ sql p
    | none => sql)
  let sql := (match payload.havingP with
    | some p => having sql p
    | none => sql)
  let sql := (match payload.orderP with
    | some p => order sql p
    | none => sql)
  let sql := (match payload.groupP with
    | some p => group sql p
    | none => sql)
  let sql := (match payload.limitP with
    | some v => limit sql v
    | none => sql)
  let sql := (match payload.paramsP with
    | some p => params sql p
    | none => sql)
  build sql

/-- Modelled from the spec: the escape table of §4.1 — `\0 \b \t \n \r \x1a
" ' \` are the nine characters that get a backslash-escaped form (`\x1a`
becoming `\Z`); used to compare `escChar` against the spec's wording. -/
def specEscMap (c : Char) : Option Char :=
  if c = '\x00' then some '0'
  else if c = '\x08' then some 'b'
  else if c = '\x09' then some 't'
  else if c = '\x0a' then some 'n'
  else if c = '\x0d' then some 'r'
  else if c = '\x1a' then some 'Z'
  else if c = '"' then some '"'
  else if c = '\'' then some '\''
  else if c = '\\' then some '\\'
  else none

/-- Modelled from the spec: decoding of a backslash escape in a standard SQL
(MySQL-style) string literal — the named escapes decode to their control
characters, any other escaped character stands for itself. -/
def unescape (e : Char) : Char :=
  if e = '0' then '\x00'
  else if e = 'b' then '\x08'
  else if e = 't' then '\x09'
  else if e = 'n' then '\x0a'
  else if e = 'r' then '\x0d'
  else if e = 'Z' then '\x1a'
  else e

/-- Modelled from the spec: the body of a standard SQL single-quoted string
literal — a backslash escape decodes via `unescape`, a doubled `''` decodes to
a quote, a lone quote closes the literal (anything after it fails the parse),
and an unterminated body fails. -/
def parseBody : List Char → Option (List Char)
  | [] => none
  | c :: rest =>
      if c = '\\' then
        match rest with
        | [] => none
        | e :: rest2 => (parseBody rest2).map (fun l => unescape e :: l)
      else if c = '\'' then
        match rest with
        | [] => some []
        | q :: rest2 =>
            if q = '\'' then (parseBody rest2).map (fun l => '\'' :: l)
            else none
      else (parseBody rest).map (fun l => c :: l)

/-- Modelled from the spec: a full standard SQL single-quoted string literal. -/
def sqlLiteralParse (cs : List Char) : Option (List Char) :=
  match cs with
  | q :: body => if q = '\'' then parseBody body else none
  | [] => none

/-- Builder state for the spec's `where` scenario: tables `users`/`user`
registered, positional parameters `['John','Doe']` supplied. -/
def c1Builder : Builder :=
  { freshBuilder with
    sql_identifiers := ["users", "user"],
    sql_params := [("0", .vStr "John"), ("1", .vStr "Doe")] }

/-- The condition list of the spec's `where` scenario. -/
def c1Conds : List JsVal :=
  [ .vArr [.vStr "user.active", .vStr "=", .vBool true],
    .vObj [("or", .vArr
      [ .vArr [.vStr "user.first_name", .vStr "=", .vStr "?"],
        .vArr [.vStr "user.last_name", .vStr "=", .vStr "?"] ])] ]

/-- Builder state for the `between` scenario: table registered, positional
parameters `[18, 65]` supplied. -/
def c3Builder : Builder :=
  { freshBuilder with
    sql_identifiers := ["users", "user"],
    sql_params := [("0", .vNum 18), ("1", .vNum 65)] }

/-- A valid `SELECT` builder (mode set, table registered) used to show that a
condition error propagates out of `build()`. -/
def selectBuilder : Builder :=
  { freshBuilder with
    sql_mode := some "select",
    sql_select := some ⟨.pair "`users`" "`user`", [.vStr "user.*"]⟩,
    sql_identifiers := ["users", "user"] }

/-! Helper lemmas about the embedded operations. -/

theorem exc_bind_ok {α β : Type} (x : α) (f : α → Except String β) :
    Except.bind (Except.ok x) f = f x := rfl

theorem exc_bind_error {α β : Type} (e : String) (f : α → Except String β) :
    Except.bind (Except.error e : Except String α) f = Except.error e := rfl

/-- Unfolding of `processConditionsF` at a leaf condition. -/
theorem pcf_leaf_cons (fuel : Nat) (b : Builder) (c o v : JsVal) (rest : List JsVal) :
    processConditionsF (fuel + 1) b (.vArr [c, o, v] :: rest) =
      (processCondition b c o v).bind (fun rb =>
        (processConditionsF fuel rb.2 rest).bind (fun rsb =>
          Except.ok (rb.1 :: rsb.1, rsb.2))) := rfl

/-- Unfolding of `processConditionsF` at a raw string fragment. -/
theorem pcf_raw_cons (fuel : Nat) (b : Builder) (s : String) (rest : List JsVal) :
    processConditionsF (fuel + 1) b (.vStr s :: rest) =
      (processConditionsF fuel b rest).bind (fun rsb =>
        Except.ok (some s :: rsb.1, rsb.2)) := rfl

theorem escChar_of_word {c : Char} (h : isWordChar c = true) : escChar c = [c] := by
  unfold escChar
  split_ifs <;> first | rfl | (subst_vars; exact absurd h (by decide))

theorem word_ne_dot {c : Char} (h : isWordChar c = true) : c ≠ '.' := by
  intro he; subst he; exact absurd h (by decide)

theorem word_ne_space {c : Char} (h : isWordChar c = true) : c ≠ ' ' := by
  intro he; subst he; exact absurd h (by decide)

theorem sqlEscapeL_id : ∀ {l : List Char}, (∀ ch ∈ l, escChar ch = [ch]) → sqlEscapeL l = l := by
  intro l
  induction l with
  | nil => intro _; rfl
  | cons a l ih =>
      intro h
      show escChar a ++ sqlEscapeL l = a :: l
      rw [h a (by simp), ih (fun ch hc => h ch (by simp [hc]))]
      rfl

theorem takeWhile_all {p : Char → Bool} :
    ∀ {l : List Char}, (∀ a ∈ l, p a = true) → l.takeWhile p = l := by
  intro l
  induction l with
  | nil => intro _; rfl
  | cons a l ih =>
      intro h
      simp [List.takeWhile, h a (by simp), ih (fun x hx => h x (by simp [hx]))]

/-- The dotted-identifier regex matches a whole `word.wordstar` token. -/
theorem dottedMatchAt_full (t c : List Char) (ht : t ≠ []) (hc : c ≠ [])
    (htw : ∀ ch ∈ t, isWordChar ch = true)
    (hcw : ∀ ch ∈ c, isWordStarChar ch = true) :
    dottedMatchAt (t ++ '.' :: c) = some (t ++ '.' :: c, []) := by
  have hw : (t ++ '.' :: c).takeWhile isWordChar = t := by
    rw [List.takeWhile_append_of_pos htw]
    simp [List.takeWhile, isWordChar]
  have hd : (t ++ '.' :: c).drop t.length = '.' :: c := List.drop_left t ('.' :: c)
  have hcs : c.takeWhile isWordStarChar = c := takeWhile_all hcw
  simp only [dottedMatchAt, hw, hd, hcs, if_neg ht, if_neg hc, List.drop_length]
  simp

theorem dottedScan_nil (ids : List String) (f : Nat) :
    dottedScan ids f [] = ([], false) := by
  cases f <;> rfl

/-- When the whole input is one regex match, the scan is just the callback. -/
theorem dottedScan_full (ids : List String) (cs m : List Char)
    (h : dottedMatchAt cs = some (m, [])) :
    ∀ f, f ≠ 0 → dottedScan ids f cs = dottedCallback ids m := by
  intro f hf
  cases f with
  | zero => exact absurd rfl hf
  | succ f' => simp [dottedScan, h, dottedScan_nil]

theorem asMatchAt_none_of_nospace {cs : List Char} (h : ' ' ∉ cs) :
    asMatchAt cs = none := by
  match cs with
  | [] => rfl
  | [x] => rfl
  | [x, y] => rfl
  | x :: y :: sp :: r =>
      have hsp : ¬(sp = ' ') := by
        intro he; subst he; exact h (by simp)
      simp [asMatchAt, hsp]

/-- The `AS`-alias regex needs a space, so space-free text passes unchanged. -/
theorem asScan_nospace : ∀ {cs : List Char}, ' ' ∉ cs → ∀ f, asScan f cs = (cs, false) := by
  intro cs
  induction cs with
  | nil => intro _ f; cases f <;> rfl
  | cons ch rest ih =>
      intro h f
      cases f with
      | zero => rfl
      | succ f' =>
          have hm : asMatchAt (ch :: rest) = none := asMatchAt_none_of_nospace h
          have hr : ' ' ∉ rest := fun hx => h (by simp [hx])
          simp [asScan, hm, ih hr f']

theorem splitChar_no_sep {sep : Char} :
    ∀ {l : List Char}, (∀ a ∈ l, a ≠ sep) → splitChar sep l = [l] := by
  intro l
  induction l with
  | nil => intro _; rfl
  | cons a l ih =>
      intro h
      have := ih (fun x hx => h x (by simp [hx]))
      simp [splitChar, this, h a (by simp)]

theorem splitChar_pair {sep : Char} (t c : List Char)
    (ht : ∀ a ∈ t, a ≠ sep) (hc : ∀ a ∈ c, a ≠ sep) :
    splitChar sep (t ++ sep :: c) = [t, c] := by
  induction t with
  | nil => simp [splitChar, splitChar_no_sep hc]
  | cons a t' ih =>
      have := ih (fun x hx => ht x (by simp [hx]))
      simp at this
      simp [splitChar, this, ht a (by simp)]

/-- The replacement callback quotes both segments of a registered pair. -/
theorem dottedCallback_registered (ids : List String) (t c : List Char)
    (htw : ∀ ch ∈ t, isWordChar ch = true)
    (hcw : ∀ ch ∈ c, isWordChar ch = true)
    (hreg : ids.contains (String.mk t) = true) :
    dottedCallback ids (t ++ '.' :: c)
      = ('`' :: (t ++ '`' :: '.' :: '`' :: (c ++ ['`'])), true) := by
  have hsp := splitChar_pair t c (fun a ha => word_ne_dot (htw a ha))
    (fun a ha => word_ne_dot (hcw a ha))
  have htne : ¬(t = ['*']) := by
    intro he; subst he; exact absurd (htw '*' (by simp)) (by decide)
  have hcne : ¬(c = ['*']) := by
    intro he; subst he; exact absurd (hcw '*' (by simp)) (by decide)
  have het : sqlEscapeL t = t := sqlEscapeL_id (fun ch hc => escChar_of_word (htw ch hc))
  have hec : sqlEscapeL c = c := sqlEscapeL_id (fun ch hc' => escChar_of_word (hcw ch hc'))
  simp [dottedCallback, hsp, htne, hcne, het, hec, joinSep]
  simpa using hreg

/-- The replacement callback leaves a registered `table.*` star unquoted. -/
theorem dottedCallback_star (ids : List String) (t : List Char)
    (htw : ∀ ch ∈ t, isWordChar ch = true)
    (hreg : ids.contains (String.mk t) = true) :
    dottedCallback ids (t ++ ['.', '*'])
      = ('`' :: (t ++ '`' :: '.' :: ['*']), true) := by
  have hsp := splitChar_pair t ['*'] (fun a ha => word_ne_dot (htw a ha))
    (by intro a ha; simp at ha; subst ha; decide)
  have htne : ¬(t = ['*']) := by
    intro he; subst he; exact absurd (htw '*' (by simp)) (by decide)
  have het : sqlEscapeL t = t := sqlEscapeL_id (fun ch hc => escChar_of_word (htw ch hc))
  have heq : (t ++ ['.', '*'] : List Char) = t ++ '.' :: ['*'] := by simp
  rw [heq]
  simp [dottedCallback, hsp, htne, het, joinSep]
  simpa using hreg

/-- The replacement callback returns an unregistered match unchanged. -/
theorem dottedCallback_unregistered (ids : List String) (t c : List Char)
    (htw : ∀ ch ∈ t, isWordChar ch = true)
    (hcw : ∀ ch ∈ c, isWordChar ch = true)
    (hreg : ids.contains (String.mk t) = false) :
    dottedCallback ids (t ++ '.' :: c) = (t ++ '.' :: c, false) := by
  have hsp := splitChar_pair t c (fun a ha => word_ne_dot (htw a ha))
    (fun a ha => word_ne_dot (hcw a ha))
  simp [dottedCallback, hsp]
  simpa using hreg

theorem contains_space_false {cs : List Char} (h : ' ' ∉ cs) :
    cs.contains ' ' = false := by
  simpa using h

theorem mk_append (a b : List Char) :
    String.mk a ++ String.mk b = String.mk (a ++ b) := rfl

/-- Escaping then parsing the literal body recovers the original text. -/
theorem parseBody_escape (l : List Char) :
    parseBody (sqlEscapeL l ++ ['\'']) = some l := by
  induction l with
  | nil => rfl
  | cons c rest ih =>
      show parseBody ((escChar c ++ sqlEscapeL rest) ++ ['\'']) = some (c :: rest)
      rw [List.append_assoc]
      unfold escChar
      split_ifs with h1 h2 h3 h4 h5 h6 h7 h8 h9 <;>
        first
        | (simp_all [parseBody, unescape]; done)
        | (simp only [List.singleton_append]; rw [parseBody.eq_def];
           (try dsimp only); rw [if_neg h9, if_neg h8, ih]; rfl)

/-- `build()` on an unset statement mode throws `Unknown query type`. -/
theorem build_mode_none (b : Builder) (hb : b.sql_mode = none) :
    build b = Except.error "Unknown query type" := by
  unfold build
  rw [hb]
  rfl

theorem where_mode (b : Builder) (xs : List JsVal) :
    (where_ b xs).sql_mode = b.sql_mode := rfl

theorem having_mode (b : Builder) (xs : List JsVal) :
    (having b xs).sql_mode = b.sql_mode := rfl

theorem order_mode (b : Builder) (xs : List JsVal) :
    (order b xs).sql_mode = b.sql_mode := rfl

theorem group_mode (b : Builder) (xs : List JsVal) :
    (group b xs).sql_mode = b.sql_mode := rfl

theorem limit_mode (b : Builder) (v : JsVal) :
    (limit b v).sql_mode = b.sql_mode := by
  simp only [limit]
  split_ifs <;> rfl

theorem params_mode (b : Builder) (p : ParamsPayload) :
    (params b p).sql_mode = b.sql_mode := by
  cases p <;> rfl

theorem table_mode (b : Builder) (tp : TablePayload) :
    (table b tp).2.sql_mode = b.sql_mode := by
  cases tp with
  | str s => rfl
  | obj pairs => cases pairs with
    | nil => rfl
    | cons hd tl => rfl

/-- `joins()` never changes the statement mode. -/
theorem joins_mode (items : List JoinPayloadItem) :
    ∀ (b b' : Builder), joins b items = Except.ok b' → b'.sql_mode = b.sql_mode := by
  induction items with
  | nil =>
      intro b b' h
      unfold joins at h
      exact congrArg Builder.sql_mode (Except.ok.inj h).symm
  | cons item rest ih =>
      intro b b' h
      unfold joins at h
      cases hty : item.type with
      | none => rw [hty] at h; exact absurd h (by simp)
      | some ty =>
        rw [hty] at h
        cases htb : item.table with
        | none => rw [htb] at h; exact absurd h (by simp)
        | some tp =>
          rw [htb] at h
          cases hcn : item.conditions with
          | none => rw [hcn] at h; exact absurd h (by simp)
          | some conds =>
            rw [hcn] at h
            have := ih _ _ h
            rw [this]
            exact table_mode b tp

/-- Claim C1 (code bug): on the spec's scenario — tables `users`/`user`
registered, positional parameters `['John','Doe']`, conditions
`[['user.active','=',true], {or:[['user.first_name','=','?'],
['user.last_name','=','?']]}]` — the compiler renders the boolean expression
with `= true`, not `= 1`: the `case 'bool':` switch label never matches at
runtime because JavaScript `typeof true` is `'boolean'`, so the boolean falls
through to `identifier` and is string-coerced.  Both positional parameters are
still consumed by the `?` placeholders. -/
theorem C1_boolean_condition_eval :
    (processConditions c1Builder c1Conds).map (fun r => jsJoin " AND " r.1)
      = .ok "`user`.`active` = true AND (`user`.`first_name` = 'John' OR `user`.`last_name` = 'Doe')"
    ∧ (processConditions c1Builder c1Conds).map (fun r => r.2.sql_param_counter)
      = .ok 2
    ∧ ("`user`.`active` = true AND (`user`.`first_name` = 'John' OR `user`.`last_name` = 'Doe')"
        ≠ "`user`.`active` = 1 AND (`user`.`first_name` = 'John' OR `user`.`last_name` = 'Doe')") :=
  ⟨rfl, rfl, by decide⟩

/-- Claim C2 (code bug): booleans are *not* rendered as `1`/`0` by either
resolver, whatever the force-quote flag: `identifierOrQuote` returns the
passthrough text `true`/`false` (backtick-quoted under force-quoting) and
`quote` returns the single-quoted coercion `'true'`/`'false'`, because the
`case 'bool':` label can never equal JavaScript's `typeof` result
`'boolean'`. -/
theorem C2_boolean_resolution_eval :
    (identifierOrQuote freshBuilder (.vBool true) false).1 = "true"
    ∧ (identifierOrQuote freshBuilder (.vBool true) true).1 = "`true`"
    ∧ (identifierOrQuote freshBuilder (.vBool false) false).1 = "false"
    ∧ (identifierOrQuote freshBuilder (.vBool false) true).1 = "`false`"
    ∧ quote (.vBool true) false = "'true'"
    ∧ quote (.vBool true) true = "'true'"
    ∧ quote (.vBool false) false = "'false'"
    ∧ quote (.vBool false) true = "'false'" :=
  ⟨rfl, rfl, rfl, rfl, rfl, rfl, rfl, rfl⟩

/-- Claim C3 (code bug): on `['user.age','between',['?','?']]` with positional
parameters `[18, 65]` and the table registered, the compiler renders
``​`user`.`age` BETWEEN 0 AND 1`` — the `between` loop
`for (let val in condition[2])` iterates the array's *keys* `"0"`, `"1"`
(resolved without force-quote), the two `?` entries are never resolved, and
the positional cursor does not move. -/
theorem C3_between_eval :
    (processCondition c3Builder (.vStr "user.age") (.vStr "between")
        (.vArr [.vStr "?", .vStr "?"])).map (fun r => r.1)
      = .ok (some "`user`.`age` BETWEEN 0 AND 1")
    ∧ (processCondition c3Builder (.vStr "user.age") (.vStr "between")
        (.vArr [.vStr "?", .vStr "?"])).map (fun r => r.2.sql_param_counter)
      = .ok 0 :=
  ⟨rfl, rfl⟩

/-- Claim C4 counterexample: the claim's passthrough half is false as stated —
for the unregistered dotted token `foo.bar`, resolution under `force_quote`
returns the backtick-wrapped token, not the token byte-for-byte unchanged. -/
theorem C4_force_quote_counterexample :
    identifier ["users", "user"] (.vStr "foo.bar") true = "`foo.bar`"
    ∧ ("`foo.bar`" : String) ≠ "foo.bar" :=
  ⟨rfl, by decide⟩

/-- Claim C4 (amended): for word-character segments `t` and `c`, a registered
`t.c` resolves to ``​`t`.`c`​`` and a registered `t.*` to ``​`t`.*``
(whatever the force-quote flag); an unregistered first segment passes the
token through byte-for-byte only when force-quoting is not requested — with
`force_quote` set (and the token space-free) the whole token is wrapped in
backticks instead. -/
theorem C4_identifier_resolution (ids : List String) (t c : List Char)
    (ht : t ≠ []) (hc : c ≠ [])
    (htw : ∀ ch ∈ t, isWordChar ch = true)
    (hcw : ∀ ch ∈ c, isWordChar ch = true) :
    (ids.contains (String.mk t) = true →
      ∀ fq, identifier ids (.vStr (String.mk (t ++ '.' :: c))) fq
        = "`" ++ String.mk t ++ "`.`" ++ String.mk c ++ "`")
    ∧ (ids.contains (String.mk t) = true →
      ∀ fq, identifier ids (.vStr (String.mk (t ++ ['.', '*']))) fq
        = "`" ++ String.mk t ++ "`.*")
    ∧ (ids.contains (String.mk t) = false →
      identifier ids (.vStr (String.mk (t ++ '.' :: c))) false
        = String.mk (t ++ '.' :: c))
    ∧ (ids.contains (String.mk t) = false →
      identifier ids (.vStr (String.mk (t ++ '.' :: c))) true
        = "`" ++ String.mk (t ++ '.' :: c) ++ "`") := by
  have hws : ∀ ch ∈ c, isWordStarChar ch = true := by
    intro ch hch; simp [isWordStarChar, hcw ch hch]
  have hm := dottedMatchAt_full t c ht hc htw hws
  have hmStar := dottedMatchAt_full t ['*'] ht (by simp) htw (by decide)
  have hLnosp : ' ' ∉ t ++ '.' :: c := by
    simp
    exact ⟨fun hmem => absurd (htw ' ' hmem) (by decide),
           fun hmem => absurd (hcw ' ' hmem) (by decide)⟩
  have hdata : (String.mk (t ++ '.' :: c)).data = t ++ '.' :: c := rfl
  have hjs : jsString (.vStr (String.mk (t ++ '.' :: c))) = String.mk (t ++ '.' :: c) := rfl
  refine ⟨?_, ?_, ?_, ?_⟩
  · -- registered: `t`.`c`
    intro hreg fq
    have hcb := dottedCallback_registered ids t c htw hcw hreg
    have hs1 : dottedScan ids (t ++ '.' :: c).length (t ++ '.' :: c)
        = ('`' :: (t ++ '`' :: '.' :: '`' :: (c ++ ['`'])), true) := by
      rw [dottedScan_full ids _ _ hm _ (by simp)]
      exact hcb
    have hnosp : ' ' ∉ ('`' :: (t ++ '`' :: '.' :: '`' :: (c ++ ['`']))) := by
      simp
      exact ⟨fun hmem => absurd (htw ' ' hmem) (by decide),
             fun hmem => absurd (hcw ' ' hmem) (by decide)⟩
    have has := asScan_nospace hnosp
        (('`' :: (t ++ '`' :: '.' :: '`' :: (c ++ ['`']))).length)
    simp only [identifier, hjs, hdata, hs1, has]
    simp only [Bool.true_or, Bool.not_true, Bool.false_and, Bool.false_eq_true, if_neg]
    rw [mk_append, mk_append, mk_append, mk_append]
    apply congrArg String.mk
    simp
  · -- registered star: `t`.*
    intro hreg fq
    have hcb := dottedCallback_star ids t htw hreg
    have heq : (t ++ ['.', '*'] : List Char) = t ++ '.' :: ['*'] := by simp
    have hs1 : dottedScan ids (t ++ ['.', '*']).length (t ++ ['.', '*'])
        = ('`' :: (t ++ '`' :: '.' :: ['*']), true) := by
      rw [heq, dottedScan_full ids _ _ hmStar _ (by simp), ← heq]
      exact hcb
    have hnosp : ' ' ∉ ('`' :: (t ++ '`' :: '.' :: ['*'])) := by
      simp
      exact fun hmem => absurd (htw ' ' hmem) (by decide)
    have has := asScan_nospace hnosp (('`' :: (t ++ '`' :: '.' :: ['*'])).length)
    have hdata2 : (String.mk (t ++ ['.', '*'])).data = t ++ ['.', '*'] := rfl
    have hjs2 : jsString (.vStr (String.mk (t ++ ['.', '*']))) = String.mk (t ++ ['.', '*']) := rfl
    simp only [identifier, hjs2, hdata2, hs1, has]
    simp only [Bool.true_or, Bool.not_true, Bool.false_and, Bool.false_eq_true, if_neg]
    rw [show ("`.*" : String) = String.mk ['`', '.', '*'] from rfl, mk_append, mk_append]
    apply congrArg String.mk
    simp
  · -- unregistered, no force-quote: byte-for-byte passthrough
    intro hreg
    have hcb := dottedCallback_unregistered ids t c htw hcw hreg
    have hs1 : dottedScan ids (t ++ '.' :: c).length (t ++ '.' :: c)
        = (t ++ '.' :: c, false) := by
      rw [dottedScan_full ids _ _ hm _ (by simp)]
      exact hcb
    have has := asScan_nospace hLnosp ((t ++ '.' :: c).length)
    simp only [identifier, hjs, hdata, hs1, has]
    simp
  · -- unregistered, force-quote: whole token backticked
    intro hreg
    have hcb := dottedCallback_unregistered ids t c htw hcw hreg
    have hs1 : dottedScan ids (t ++ '.' :: c).length (t ++ '.' :: c)
        = (t ++ '.' :: c, false) := by
      rw [dottedScan_full ids _ _ hm _ (by simp)]
      exact hcb
    have has := asScan_nospace hLnosp ((t ++ '.' :: c).length)
    have hcont := contains_space_false hLnosp
    have hesc : sqlEscapeL (t ++ '.' :: c) = t ++ '.' :: c := by
      apply sqlEscapeL_id
      intro ch hch
      simp at hch
      rcases hch with hch | hch | hch
      · exact escChar_of_word (htw ch hch)
      · subst hch; decide
      · exact escChar_of_word (hcw ch hch)
    simp only [identifier, hjs, hdata, hs1, has, hcont]
    simp only [Bool.or_self, Bool.not_false, Bool.true_and, Bool.and_true, if_pos]
    rw [show sqlEscape (String.mk (t ++ '.' :: c)) = String.mk (t ++ '.' :: c) from
          congrArg String.mk hesc]

/-- Claim C4 witness: the amended resolution evaluated at the registered pair
`user.id` and at an unregistered registry. -/
theorem C4_identifier_resolution_witness :
    (∀ ch ∈ ("user".data : List Char), isWordChar ch = true)
    ∧ identifier ["user"] (.vStr "user.id") false = "`user`.`id`"
    ∧ identifier ["user"] (.vStr "user.*") true = "`user`.*"
    ∧ identifier ["nope"] (.vStr "user.id") false = "user.id" := by
  refine ⟨by decide, ?_, ?_, ?_⟩
  · exact (C4_identifier_resolution ["user"] "user".data "id".data
      (by decide) (by decide) (by decide) (by decide)).1 (by decide) false
  · exact (C4_identifier_resolution ["user"] "user".data "id".data
      (by decide) (by decide) (by decide) (by decide)).2.1 (by decide) true
  · exact (C4_identifier_resolution ["nope"] "user".data "id".data
      (by decide) (by decide) (by decide) (by decide)).2.2.1 (by decide)

/-- Claim C5: `sqlEscape` expands exactly the spec's nine characters to their
backslash-escaped forms (`\x1a` to `\Z`) and leaves every other character
unchanged, and wrapping the escaped text in single quotes and re-parsing it
with a standard SQL string-literal grammar reproduces the original string
(round trip). -/
theorem C5_escape_round_trip (s : String) :
    sqlLiteralParse ('\'' :: ((sqlEscape s).data ++ ['\''])) = some s.data
    ∧ (∀ c : Char, escChar c = (match specEscMap c with
        | some e => ['\\', e]
        | none => [c])) := by
  constructor
  · show sqlLiteralParse ('\'' :: (sqlEscapeL s.data ++ ['\''])) = some s.data
    simp [sqlLiteralParse, parseBody_escape]
  · intro c
    unfold escChar specEscMap
    split_ifs <;> rfl

/-- Claim C6: resolving the exact token `?` when the positional cursor is not
a key of the parameter store raises no error (the resolver is a total
function), consumes nothing — the returned builder is the input builder, so
the cursor has not advanced — and echoes the placeholder back literally (as
`?`, or backtick-wrapped `` `?` `` when force-quoting is requested). -/
theorem C6_exhausted_positional (b : Builder) (fq : Bool)
    (h : b.sql_params.lookup (toString b.sql_param_counter) = none) :
    identifierOrQuote b (.vStr "?") fq = ((if fq then "`?`" else "?"), b) := by
  cases fq <;> (unfold identifierOrQuote; rw [h]) <;> rfl

/-- Claim C6 witness: a fresh builder has no parameter at cursor 0. -/
theorem C6_exhausted_positional_witness :
    freshBuilder.sql_params.lookup (toString freshBuilder.sql_param_counter) = none
    ∧ identifierOrQuote freshBuilder (.vStr "?") true = ("`?`", freshBuilder) :=
  ⟨rfl, C6_exhausted_positional freshBuilder true rfl⟩

/-- Claim C7 counterexample: the claim's "every non-sequence value" is false
as stated — `null` is not a sequence, yet JavaScript `typeof null` is
`"object"`, so `['user.id','in',null]` passes the guard and compiles to the
*populated* degenerate fragment `user.id IN ()` (and `between` to
`user.id BETWEEN `), not to an empty/omitted one; the fragment survives
non-empty in the joined clause. -/
theorem C7_null_value_counterexample :
    processCondition freshBuilder (.vStr "user.id") (.vStr "in") .vNull
      = Except.ok (some "user.id IN ()", freshBuilder)
    ∧ processCondition freshBuilder (.vStr "user.id") (.vStr "between") .vNull
      = Except.ok (some "user.id BETWEEN ", freshBuilder)
    ∧ jsJoin "\nAND " [some "user.id IN ()"] = "user.id IN ()"
    ∧ ("user.id IN ()" : String) ≠ "" :=
  ⟨rfl, rfl, rfl, by decide⟩

/-- Claim C7 (amended): a `between`/`in`/`not in` leaf whose value is a
primitive non-sequence (JavaScript `typeof` other than `"object"`: number,
string or boolean) raises no error and compiles to the `null` fragment, which
`Array.prototype.join` renders as the empty string — silently producing a
syntactically incomplete joined clause.  (A `null` or non-array-object value
passes the `typeof` guard instead and yields a populated degenerate fragment;
see the counterexample.) -/
theorem C7_malformed_sequence_degenerate (b : Builder) (c v : JsVal) (op : String)
    (hop : op = "between" ∨ op = "in" ∨ op = "not in")
    (hv : jsTypeof v ≠ "object") :
    processCondition b c (.vStr op) v = Except.ok (none, b)
    ∧ processConditions b [.vArr [c, .vStr op, v], .vStr "1=1"]
        = Except.ok ([none, some "1=1"], b)
    ∧ jsJoin "\nAND " [none, some "1=1"] = "\nAND 1=1" := by
  have h1 : processCondition b c (.vStr op) v = Except.ok (none, b) := by
    obtain h | h | h := hop <;> subst h <;>
      (unfold processCondition; simp [hv])
  refine ⟨h1, ?_, rfl⟩
  unfold processConditions
  rw [pcf_leaf_cons, h1]
  rfl

/-- Claim C7 witness: `['user.id', 'in', 5]` on a fresh builder. -/
theorem C7_malformed_sequence_degenerate_witness :
    (("in" : String) = "between" ∨ ("in" : String) = "in" ∨ ("in" : String) = "not in")
    ∧ jsTypeof (.vNum 5) ≠ "object"
    ∧ (processCondition freshBuilder (.vStr "user.id") (.vStr "in") (.vNum 5)
        = Except.ok (none, freshBuilder)
      ∧ processConditions freshBuilder
          [.vArr [.vStr "user.id", .vStr "in", .vNum 5], .vStr "1=1"]
        = Except.ok ([none, some "1=1"], freshBuilder)
      ∧ jsJoin "\nAND " [none, some "1=1"] = "\nAND 1=1") :=
  ⟨Or.inr (Or.inl rfl), by decide,
   C7_malformed_sequence_degenerate freshBuilder (.vStr "user.id") (.vNum 5) "in"
     (Or.inr (Or.inl rfl)) (by decide)⟩

/-- Claim C8: a leaf with an operator outside the sixteen-entry table fails
fast with the unknown-operator error — `processCondition` returns the error
without producing any fragment, the error aborts `processConditions`, and (on
the spec's `xor` scenario, a registered `SELECT` builder) it propagates out of
`build()` unchanged. -/
theorem C8_unknown_operator (b : Builder) (c v : JsVal) (op : String)
    (h : op ∉ ["=", "<=", ">=", "<", ">", "!=", "<>", "is", "is not", "between",
               "in", "not in", "contains", "begins", "ends", "in set"]) :
    processCondition b c (.vStr op) v = Except.error "Condition: Unknown clause"
    ∧ processConditions b [.vArr [c, .vStr op, v]] = Except.error "Condition: Unknown clause"
    ∧ build { selectBuilder with
        sql_where := [.vArr [.vStr "user.id", .vStr "xor", .vStr "?"]] }
      = Except.error "Condition: Unknown clause" := by
  simp only [List.mem_cons, List.mem_singleton, not_or] at h
  obtain ⟨h1,h2,h3,h4,h5,h6,h7,h8,h9,h10,h11,h12,h13,h14,h15,h16⟩ := h
  have hpc : processCondition b c (.vStr op) v = Except.error "Condition: Unknown clause" := by
    unfold processCondition
    simp [h1,h2,h3,h4,h5,h6,h7,h8,h9,h10,h11,h12,h13,h14,h15,h16]
  refine ⟨hpc, ?_, rfl⟩
  unfold processConditions
  rw [pcf_leaf_cons, hpc]
  rfl

/-- Claim C8 witness: the operator `xor` is not in the table. -/
theorem C8_unknown_operator_witness :
    (("xor" : String) ∉ ["=", "<=", ">=", "<", ">", "!=", "<>", "is", "is not", "between",
               "in", "not in", "contains", "begins", "ends", "in set"])
    ∧ (processCondition freshBuilder (.vStr "user.id") (.vStr "xor") (.vStr "?")
        = Except.error "Condition: Unknown clause"
      ∧ processConditions freshBuilder [.vArr [.vStr "user.id", .vStr "xor", .vStr "?"]]
        = Except.error "Condition: Unknown clause"
      ∧ build { selectBuilder with
          sql_where := [.vArr [.vStr "user.id", .vStr "xor", .vStr "?"]] }
        = Except.error "Condition: Unknown clause") :=
  ⟨by decide,
   C8_unknown_operator freshBuilder (.vStr "user.id") (.vStr "?") "xor" (by decide)⟩

/-- Claim C10: a builder on which no statement method has run still has
`sql_mode = none`, and `build()` then throws `Unknown query type` without
producing any query text; `fromJson` with a payload lacking all four statement
keys likewise throws (either the joins validation error or, with valid or
absent joins, the same `Unknown query type`). -/
theorem C10_unknown_query_type (b : Builder) (p : JsonPayload)
    (hb : b.sql_mode = none)
    (hp : p.selectP = none ∧ p.insertP = none ∧ p.updateP = none ∧ p.deleteP = none) :
    build b = Except.error "Unknown query type" ∧ ∃ e, fromJson p = Except.error e := by
  refine ⟨build_mode_none b hb, ?_⟩
  obtain ⟨hs, hi, hu, hd⟩ := hp
  unfold fromJson
  rw [hs, hi, hu, hd]
  cases hj : p.joinsP with
  | none =>
      refine ⟨"Unknown query type", ?_⟩
      show build _ = _
      apply build_mode_none
      cases hw : p.whereP <;> cases hh : p.havingP <;> cases ho : p.orderP <;>
        cases hg : p.groupP <;> cases hl : p.limitP <;> cases hpa : p.paramsP <;>
        simp [where_mode, having_mode, order_mode, group_mode, limit_mode, params_mode,
              freshBuilder]
  | some items =>
      cases hjr : joins freshBuilder items with
      | error e =>
          refine ⟨e, ?_⟩
          show Except.bind (joins freshBuilder items) _ = _
          rw [hjr]
          rfl
      | ok b' =>
          refine ⟨"Unknown query type", ?_⟩
          show Except.bind (joins freshBuilder items) _ = _
          rw [hjr]
          show build _ = _
          apply build_mode_none
          have hb' : b'.sql_mode = none := joins_mode items freshBuilder b' hjr
          cases hw : p.whereP <;> cases hh : p.havingP <;> cases ho : p.orderP <;>
            cases hg : p.groupP <;> cases hl : p.limitP <;> cases hpa : p.paramsP <;>
            simp [where_mode, having_mode, order_mode, group_mode, limit_mode, params_mode, hb']

/-- Claim C10 witness: a fresh builder and the empty JSON payload. -/
theorem C10_unknown_query_type_witness :
    freshBuilder.sql_mode = none
    ∧ (({} : JsonPayload).selectP = none ∧ ({} : JsonPayload).insertP = none
        ∧ ({} : JsonPayload).updateP = none ∧ ({} : JsonPayload).deleteP = none)
    ∧ (build freshBuilder = Except.error "Unknown query type"
        ∧ ∃ e, fromJson {} = Except.error e) :=
  ⟨rfl, ⟨rfl, rfl, rfl, rfl⟩,
   C10_unknown_query_type freshBuilder {} rfl ⟨rfl, rfl, rfl, rfl⟩⟩

end SimpleSqlBuilder
